import Mathlib

/-
Verification of the command serialization core of an HTTP LED controller.

The source program keeps a strip of LED_COUNT pixels in an in-memory buffer
(a neopixel object with auto_write disabled), receives JSON commands over
HTTP, enqueues them on a FIFO queue and has a single worker apply them in
order under a lock.  We embed the strip state, the command data, the
worker's command interpreter, the worker loop (as a left fold over the
queue contents), the POST dispatcher, and the shutdown blanking sequence,
and prove the specified properties about them.
-/

namespace LedController

/-- LED_COUNT from the configuration section of the source (10 LEDs). -/
def LED_COUNT : Nat := 10

/-- An RGB triple as produced by hex_to_rgb. -/
abbrev RGB := Nat × Nat × Nat

/-- The strip state held by the neopixel object: the per-pixel color buffer
and the global brightness scalar.  `flushLog` records every frame pushed to
the physical device by `pixels.show()` (the device displays the last entry);
it models the hardware side effect of a flush. -/
structure StripState where
  buffer : List RGB
  brightness : ℚ
  flushLog : List (List RGB)
deriving DecidableEq, Repr

/-- Value of one hexadecimal digit character, as accepted by Python's
int(s, 16) for a single digit. -/
def hexDigitVal (c : Char) : Option Nat :=
  if '0' ≤ c ∧ c ≤ '9' then some (c.toNat - 48)
  else if 'a' ≤ c ∧ c ≤ 'f' then some (c.toNat - 87)
  else if 'A' ≤ c ∧ c ≤ 'F' then some (c.toNat - 55)
  else none

/-- Accumulating parser over hex digit characters. -/
def pyIntHexAux : List Char → Nat → Option Nat
  | [], acc => some acc
  | c :: cs, acc =>
    match hexDigitVal c with
    | some d => pyIntHexAux cs (16 * acc + d)
    | none => none

/-- Models Python's int(s, 16) on the slices reaching it from hex_to_rgb:
a non-empty all-hex-digit string parses to its value, the empty string and
any string holding a non-hex-digit character raise ValueError (here: none).
Sign/whitespace forms of int() are treated as failures; no claim depends
on such inputs. -/
def pyIntHex (cs : List Char) : Option Nat :=
  match cs with
  | [] => none
  | _ => pyIntHexAux cs 0

/-- Python slice hex_color[i:i+2]: up to two characters starting at i,
clamped to the string length. -/
def pySlice2 (cs : List Char) (i : Nat) : List Char :=
  (cs.drop i).take 2

/-- hex_to_rgb from the source: strip leading '#' characters (lstrip) and
parse the character pairs at offsets 0, 2 and 4 as hex integers.  A parse
failure in any component is a raised ValueError, modelled as none. -/
def hex_to_rgb (s : String) : Option RGB :=
  let cs := s.data.dropWhile (fun c => c = '#')
  match pyIntHex (pySlice2 cs 0), pyIntHex (pySlice2 cs 2), pyIntHex (pySlice2 cs 4) with
  | some r, some g, some b => some (r, g, b)
  | _, _, _ => none

/-- One entry of a set_pixels list: a dict read with .get, so both fields
may be absent. -/
structure PixelEntry where
  index : Option Int
  color : Option String
deriving DecidableEq, Repr

/-- The JSON body of a request, restricted to the fields the program reads
(each read with dict.get, so each may be absent). -/
structure JsonData where
  command : Option String
  index : Option Int
  color : Option String
  pixels : Option (List PixelEntry)
  brightness : Option ℚ
deriving DecidableEq, Repr

/-- A JSON body with every field absent. -/
def emptyData : JsonData := ⟨none, none, none, none, none⟩

/-- A queue entry as built in do_POST: the command string plus the whole
request body. -/
structure CommandData where
  command : String
  data : JsonData
deriving DecidableEq, Repr

/-- Error message standing for the ValueError raised by int() on a bad hex
slice (the exact Python message text is not modelled, only that an
exception is raised). -/
def valueErrorMsg : String := "invalid literal for int() with base 16"

/-- The set_pixel interpretation in _execute_led_command: if the index is
present and in [0, LED_COUNT), parse the color and write it at that index;
otherwise do nothing.  A color parse failure raises (second component some);
it can only raise when the index was valid, since the assignment guards the
parse. -/
def setPixelOp (s : StripState) (index : Option Int) (color : String) :
    StripState × Option String :=
  match index with
  | none => (s, none)
  | some i =>
    if 0 ≤ i ∧ i < (LED_COUNT : Int) then
      match hex_to_rgb color with
      | some rgb => ({ s with buffer := s.buffer.set i.toNat rgb }, none)
      | none => (s, some valueErrorMsg)
    else (s, none)

/-- The set_pixels loop in _execute_led_command: apply the set_pixel rule
to each entry in order; a raised exception (color parse failure at a valid
index) aborts the remaining entries, keeping the updates already made. -/
def setPixelsLoop (s : StripState) : List PixelEntry → StripState × Option String
  | [] => (s, none)
  | p :: rest =>
    match setPixelOp s p.index (p.color.getD "#000000") with
    | (s1, some e) => (s1, some e)
    | (s1, none) => setPixelsLoop s1 rest

/-- _execute_led_command from the source: dispatch on the command string.
set_pixel / set_pixels mutate the buffer, show appends the current buffer
to the device flush log, set_brightness clamps and stores the level
(defaulting to 0.5 when absent), and any other string falls through every
elif and does nothing.  The second component is the exception raised, if
any. -/
def execute_led_command (cd : CommandData) (s : StripState) :
    StripState × Option String :=
  if cd.command = "set_pixel" then
    setPixelOp s cd.data.index (cd.data.color.getD "#000000")
  else if cd.command = "set_pixels" then
    setPixelsLoop s (cd.data.pixels.getD [])
  else if cd.command = "show" then
    ({ s with flushLog := s.flushLog ++ [s.buffer] }, none)
  else if cd.command = "set_brightness" then
    ({ s with brightness := max 0 (min 1 (cd.data.brightness.getD (1 / 2))) }, none)
  else (s, none)

/-- One iteration of the worker body in _process_commands: execute the
dequeued command under the lock, catching (and only logging) any raised
exception, so the resulting state keeps whatever partial updates were
made. -/
def workerStep (s : StripState) (cd : CommandData) : StripState :=
  (execute_led_command cd s).1

/-- The worker loop of _process_commands over a finite queue content:
dequeue in FIFO order and apply each command in turn. -/
def process_commands (q : List CommandData) (s : StripState) : StripState :=
  q.foldl workerStep s

/-- The effect on the strip of signal_handler after the worker has been
stopped: pixels.fill((0,0,0)) then pixels.show() under the lock. -/
def signal_handler (s : StripState) : StripState :=
  let s1 : StripState := { s with buffer := List.replicate LED_COUNT (0, 0, 0) }
  { s1 with flushLog := s1.flushLog ++ [s1.buffer] }

/-- Python str formatting of a possibly-absent int (f-strings print None). -/
def pyShowOptInt : Option Int → String
  | some i => toString i
  | none => "None"

/-- Python str formatting of a possibly-absent string. -/
def pyShowOptStr : Option String → String
  | some s => s
  | none => "None"

/-- The human-readable queued message built in do_POST for each recognized
queueable command (the brightness value is rendered by toString, standing
for Python float formatting). -/
def queuedMessage (c : String) (d : JsonData) : String :=
  if c = "set_pixel" then
    "Queued set pixel " ++ pyShowOptInt d.index ++ " to " ++ pyShowOptStr d.color
  else if c = "set_pixels" then
    "Queued set " ++ toString (d.pixels.getD []).length ++ " pixels"
  else if c = "show" then "Queued LED update"
  else "Queued brightness to " ++
    (match d.brightness with | some b => toString b | none => "None")

/-- The response produced by do_POST: HTTP status, the success flag, the
error and message strings of the JSON body, the config payload of a
get_config reply, and the entry put on the command queue, if any. -/
structure PostResult where
  status : Nat
  success : Bool
  error : Option String
  message : Option String
  config : Option (Nat × ℚ)
  enqueued : Option CommandData
deriving DecidableEq, Repr

/-- do_POST from the source, given an already-parsed JSON body: the four
queueable commands are enqueued and acknowledged with 200, get_config
answers synchronously with the configuration read under the lock, and any
other command value raises ValueError("Unknown command: ..."), caught and
turned into a 400 response with success false and no enqueue. -/
def do_POST (d : JsonData) (s : StripState) : PostResult :=
  match d.command with
  | some c =>
    if c = "set_pixel" ∨ c = "set_pixels" ∨ c = "show" ∨ c = "set_brightness" then
      { status := 200, success := true, error := none,
        message := some (queuedMessage c d), config := none,
        enqueued := some ⟨c, d⟩ }
    else if c = "get_config" then
      { status := 200, success := true, error := none, message := none,
        config := some (LED_COUNT, s.brightness), enqueued := none }
    else
      { status := 400, success := false,
        error := some ("Unknown command: " ++ c), message := none,
        config := none, enqueued := none }
  | none =>
      { status := 400, success := false,
        error := some ("Unknown command: None"), message := none,
        config := none, enqueued := none }

/-! ## Spec-level command model (section 3 / 4.2 of the specification)

The specification describes commands abstractly: an index is an integer,
a color a 24-bit RGB value.  We give the interpretation rules exactly as
the specification words them, and relate them to the code's interpreter by
an encoding into the JSON-level command data. -/

/-- A 24-bit RGB color value, one byte per channel. -/
abbrev RGB8 := Fin 256 × Fin 256 × Fin 256

/-- Spec-level commands SetPixel, SetPixels and Show (SetBrightness plays
no role in the buffer/flush fold of the property being checked). -/
inductive SpecCmd where
  | setPixel (index : Int) (color : RGB8)
  | setPixels (entries : List (Int × RGB8))
  | showCmd
deriving DecidableEq, Repr

/-- Spec-level strip state: the pixel buffer and the log of flushed
frames. -/
structure SpecState where
  buffer : List RGB8
  flushLog : List (List RGB8)
deriving DecidableEq, Repr

/-- The SetPixel interpretation rule of the spec: if index is in range,
write the color at that index; out-of-range (or negative) index: no-op. -/
def specSetPixel (buf : List RGB8) (i : Int) (c : RGB8) : List RGB8 :=
  if 0 ≤ i ∧ i < (LED_COUNT : Int) then buf.set i.toNat c else buf

/-- The interpretation rules of section 4.2, one command at a time. -/
def specApply (s : SpecState) : SpecCmd → SpecState
  | .setPixel i c => { s with buffer := specSetPixel s.buffer i c }
  | .setPixels l =>
      { s with buffer := l.foldl (fun b p => specSetPixel b p.1 p.2) s.buffer }
  | .showCmd => { s with flushLog := s.flushLog ++ [s.buffer] }

/-- Applying a command sequence in submission order: a left fold of the
interpretation rules. -/
def specRun (s : SpecState) (cmds : List SpecCmd) : SpecState :=
  cmds.foldl specApply s

/-- Lower-case hex digit character for a value below 16. -/
def hexChar (n : Nat) : Char :=
  if n < 10 then Char.ofNat (48 + n) else Char.ofNat (87 + n)

/-- Two-digit lower-case hex rendering of a byte. -/
def hexByte (n : Nat) : List Char :=
  [hexChar (n / 16), hexChar (n % 16)]

/-- The "#RRGGBB" string denoting a 24-bit color. -/
def rgbToHex (c : RGB8) : String :=
  ⟨'#' :: (hexByte c.1.val ++ hexByte c.2.1.val ++ hexByte c.2.2.val)⟩

/-- The numeric value of a 24-bit color, channel by channel. -/
def rgbVal (c : RGB8) : RGB := (c.1.val, c.2.1.val, c.2.2.val)

/-- A spec-level pixel entry rendered as the JSON dict of a set_pixels
request. -/
def encodeEntry (p : Int × RGB8) : PixelEntry :=
  ⟨some p.1, some (rgbToHex p.2)⟩

/-- A spec-level command rendered as the queue entry do_POST would build
for it. -/
def encodeCmd : SpecCmd → CommandData
  | .setPixel i c =>
      ⟨"set_pixel", ⟨some "set_pixel", some i, some (rgbToHex c), none, none⟩⟩
  | .setPixels l =>
      ⟨"set_pixels", ⟨some "set_pixels", none, none, some (l.map encodeEntry), none⟩⟩
  | .showCmd => ⟨"show", ⟨some "show", none, none, none, none⟩⟩

/-- Concretization of a spec buffer to the numeric buffer of the code. -/
def concBuf (buf : List RGB8) : List RGB := buf.map rgbVal

/-- Concretization of a spec state (the code additionally carries the
brightness scalar, untouched by these commands). -/
def concState (s : SpecState) (br : ℚ) : StripState :=
  ⟨concBuf s.buffer, br, s.flushLog.map concBuf⟩

/-! ## Helper lemmas -/

theorem hexDigitVal_hexChar : ∀ n < 16, hexDigitVal (hexChar n) = some n := by
  decide

theorem hexChar_ne_hash : ∀ n < 16, hexChar n ≠ '#' := by
  decide

theorem pyIntHex_hexByte (n : Nat) (h : n < 256) : pyIntHex (hexByte n) = some n := by
  have h1 : n / 16 < 16 := by omega
  have h2 : n % 16 < 16 := by omega
  simp [hexByte, pyIntHex, pyIntHexAux, hexDigitVal_hexChar _ h1,
    hexDigitVal_hexChar _ h2]
  omega

theorem hex_to_rgb_rgbToHex (c : RGB8) : hex_to_rgb (rgbToHex c) = some (rgbVal c) := by
  obtain ⟨r, g, b⟩ := c
  have hr := pyIntHex_hexByte r.val r.isLt
  have hg := pyIntHex_hexByte g.val g.isLt
  have hb := pyIntHex_hexByte b.val b.isLt
  have hne : hexChar (r.val / 16) ≠ '#' := hexChar_ne_hash _ (by omega)
  simp only [hexByte] at hr hg hb
  simp [hex_to_rgb, rgbToHex, hexByte, pySlice2, List.dropWhile, hne, hr, hg, hb,
    rgbVal]

theorem setPixelOp_encode (buf : List RGB8) (br : ℚ) (log : List (List RGB8))
    (i : Int) (c : RGB8) :
    setPixelOp (concState ⟨buf, log⟩ br) (some i) (rgbToHex c)
      = (concState ⟨specSetPixel buf i c, log⟩ br, none) := by
  by_cases h : 0 ≤ i ∧ i < (LED_COUNT : Int)
  · simp [setPixelOp, specSetPixel, concState, concBuf, h, hex_to_rgb_rgbToHex,
      List.map_set]
  · simp [setPixelOp, specSetPixel, concState, concBuf, h]

theorem setPixelsLoop_encode (l : List (Int × RGB8)) (buf : List RGB8) (br : ℚ)
    (log : List (List RGB8)) :
    setPixelsLoop (concState ⟨buf, log⟩ br) (l.map encodeEntry)
      = (concState ⟨l.foldl (fun b p => specSetPixel b p.1 p.2) buf, log⟩ br, none) := by
  induction l generalizing buf with
  | nil => simp [setPixelsLoop]
  | cons p rest ih =>
    obtain ⟨i, c⟩ := p
    simp only [List.map_cons, setPixelsLoop, encodeEntry, Option.getD_some,
      setPixelOp_encode, List.foldl_cons]
    exact ih (specSetPixel buf i c)

theorem workerStep_encode (s : SpecState) (br : ℚ) (c : SpecCmd) :
    workerStep (concState s br) (encodeCmd c) = concState (specApply s c) br := by
  obtain ⟨buf, log⟩ := s
  cases c with
  | setPixel i col =>
    simp [workerStep, execute_led_command, encodeCmd, specApply, setPixelOp_encode]
  | setPixels l =>
    simp [workerStep, execute_led_command, encodeCmd, specApply, setPixelsLoop_encode]
  | showCmd =>
    simp [workerStep, execute_led_command, encodeCmd, specApply, concState, concBuf]

/-- The strip state at process start: LED_COUNT black pixels, brightness
0.5 (the neopixel constructor arguments), nothing flushed yet. -/
def initState : StripState := ⟨List.replicate LED_COUNT (0, 0, 0), 1 / 2, []⟩

theorem setPixelOp_buffer_length (s : StripState) (i : Option Int) (col : String) :
    (setPixelOp s i col).1.buffer.length = s.buffer.length := by
  unfold setPixelOp
  cases i with
  | none => rfl
  | some i =>
    by_cases h : 0 ≤ i ∧ i < (LED_COUNT : Int)
    · simp only [h, if_true]
      cases hex_to_rgb col <;> simp
    · simp [h]

theorem setPixelOp_flushLog (s : StripState) (i : Option Int) (col : String) :
    (setPixelOp s i col).1.flushLog = s.flushLog := by
  unfold setPixelOp
  cases i with
  | none => rfl
  | some i =>
    by_cases h : 0 ≤ i ∧ i < (LED_COUNT : Int)
    · simp only [h, if_true]
      cases hex_to_rgb col <;> simp
    · simp [h]

theorem setPixelsLoop_buffer_length (l : List PixelEntry) (s : StripState) :
    (setPixelsLoop s l).1.buffer.length = s.buffer.length := by
  induction l generalizing s with
  | nil => rfl
  | cons p rest ih =>
    unfold setPixelsLoop
    have hlen := setPixelOp_buffer_length s p.index (p.color.getD "#000000")
    rcases hop : setPixelOp s p.index (p.color.getD "#000000") with ⟨s1, e⟩
    rw [hop] at hlen
    cases e with
    | none => simpa using (ih s1).trans hlen
    | some err => simpa using hlen

theorem setPixelsLoop_flushLog (l : List PixelEntry) (s : StripState) :
    (setPixelsLoop s l).1.flushLog = s.flushLog := by
  induction l generalizing s with
  | nil => rfl
  | cons p rest ih =>
    unfold setPixelsLoop
    have hlog := setPixelOp_flushLog s p.index (p.color.getD "#000000")
    rcases hop : setPixelOp s p.index (p.color.getD "#000000") with ⟨s1, e⟩
    rw [hop] at hlog
    cases e with
    | none => simpa using (ih s1).trans hlog
    | some err => simpa using hlog

theorem workerStep_buffer_length (s : StripState) (c : CommandData) :
    (workerStep s c).buffer.length = s.buffer.length := by
  unfold workerStep execute_led_command
  by_cases h1 : c.command = "set_pixel"
  · simp [h1, setPixelOp_buffer_length]
  by_cases h2 : c.command = "set_pixels"
  · simp [h1, h2, setPixelsLoop_buffer_length]
  by_cases h3 : c.command = "show"
  · simp [h1, h2, h3]
  by_cases h4 : c.command = "set_brightness"
  · simp [h1, h2, h3, h4]
  · simp [h1, h2, h3, h4]

theorem workerStep_flushLog_of_ne (s : StripState) (c : CommandData)
    (hne : c.command ≠ "show") : (workerStep s c).flushLog = s.flushLog := by
  unfold workerStep execute_led_command
  by_cases h1 : c.command = "set_pixel"
  · simp [h1, setPixelOp_flushLog]
  by_cases h2 : c.command = "set_pixels"
  · simp [h1, h2, setPixelsLoop_flushLog]
  by_cases h4 : c.command = "set_brightness"
  · simp [h1, h2, hne, h4]
  · simp [h1, h2, hne, h4]

/-! ## Claim theorems -/

/-- C1: for every finite sequence of enqueued SetPixel/SetPixels/Show
commands processed by the worker, the final strip state (buffer and flushed
frames) equals the left fold of the spec's interpretation rules over the
initial state in submission (FIFO) order, with out-of-range indices
ignored. -/
theorem worker_refines_spec_fold (cmds : List SpecCmd) (s : SpecState) (br : ℚ) :
    process_commands (cmds.map encodeCmd) (concState s br)
      = concState (specRun s cmds) br := by
  induction cmds generalizing s with
  | nil => rfl
  | cons c rest ih =>
    simp only [List.map_cons, process_commands, List.foldl_cons, specRun,
      workerStep_encode]
    exact ih (specApply s c)

/-- C2: a set_pixel command whose index is outside [0, LED_COUNT) leaves
the whole strip state unchanged and raises no error. -/
theorem set_pixel_out_of_range_noop (d : JsonData) (i : Int) (s : StripState)
    (hidx : d.index = some i) (h : i < 0 ∨ (LED_COUNT : Int) ≤ i) :
    execute_led_command ⟨"set_pixel", d⟩ s = (s, none) := by
  have hcond : ¬(0 ≤ i ∧ i < (LED_COUNT : Int)) := by omega
  simp [execute_led_command, setPixelOp, hidx, hcond]

/-- Witness for C2 at the spec's example input: index 99 on a 10-LED
strip. -/
theorem set_pixel_out_of_range_noop_witness :
    execute_led_command
      ⟨"set_pixel", ⟨some "set_pixel", some 99, some "#ffffff", none, none⟩⟩
      initState = (initState, none) :=
  set_pixel_out_of_range_noop _ 99 initState rfl (Or.inr (by decide))

/-- C3: set_brightness always stores a value in [0, 1], equal to the clamp
max 0 (min 1 level) of the requested level; -5 stores 0, 3.2 stores 1, and
an absent level defaults to 0.5. -/
theorem set_brightness_clamped (d : JsonData) (s : StripState) :
    (0 ≤ (execute_led_command ⟨"set_brightness", d⟩ s).1.brightness
      ∧ (execute_led_command ⟨"set_brightness", d⟩ s).1.brightness ≤ 1
      ∧ (execute_led_command ⟨"set_brightness", d⟩ s).1.brightness
          = max 0 (min 1 (d.brightness.getD (1 / 2))))
    ∧ (execute_led_command ⟨"set_brightness", ⟨none, none, none, none, some (-5)⟩⟩ s).1.brightness = 0
    ∧ (execute_led_command ⟨"set_brightness", ⟨none, none, none, none, some (16 / 5)⟩⟩ s).1.brightness = 1
    ∧ (execute_led_command ⟨"set_brightness", ⟨none, none, none, none, none⟩⟩ s).1.brightness = 1 / 2 := by
  refine ⟨⟨le_max_left 0 _, max_le (by norm_num) (min_le_left 1 _), ?_⟩, ?_, ?_, ?_⟩
  · simp [execute_led_command]
  · simp [execute_led_command] <;> norm_num
  · simp [execute_led_command] <;> norm_num
  · simp [execute_led_command] <;> norm_num

/-- The set_pixels payload refuting C4 as stated: the first entry has a
valid index but an unparseable color, the second entry is fully valid. -/
def c4Cmd : CommandData :=
  ⟨"set_pixels", ⟨some "set_pixels", none, none,
    some [⟨some 0, some "#ZZZZZZ"⟩, ⟨some 1, some "#00ff00"⟩], none⟩⟩

/-- Counterexample to C4 as stated: running the two-entry list from the
initial state raises at the first entry and leaves pixel 1 black, although
the second entry alone would have set pixel 1 to (0, 255, 0) — so one
invalid entry does abort the remaining entries. -/
theorem set_pixels_abort_counterexample :
    (execute_led_command c4Cmd initState).1.buffer.get? 1 = some (0, 0, 0)
    ∧ (execute_led_command c4Cmd initState).2 = some valueErrorMsg
    ∧ (setPixelsLoop initState [⟨some 1, some "#00ff00"⟩]).1.buffer.get? 1
        = some (0, 255, 0) := by
  decide

/-- C4 amended: entries are processed in list order; an entry with a
missing or out-of-range index is skipped without aborting the remaining
entries; an entry with a valid index and a parseable color writes that
color; but an entry with a valid index whose color fails to parse raises
and aborts the remaining entries (updates already made persist). -/
theorem set_pixels_entry_rules (p : PixelEntry) (rest : List PixelEntry) (s : StripState) :
    (p.index = none → setPixelsLoop s (p :: rest) = setPixelsLoop s rest)
    ∧ (∀ i : Int, p.index = some i → (i < 0 ∨ (LED_COUNT : Int) ≤ i) →
        setPixelsLoop s (p :: rest) = setPixelsLoop s rest)
    ∧ (∀ i : Int, p.index = some i → 0 ≤ i → i < (LED_COUNT : Int) →
        ∀ rgb : RGB, hex_to_rgb (p.color.getD "#000000") = some rgb →
        setPixelsLoop s (p :: rest)
          = setPixelsLoop { s with buffer := s.buffer.set i.toNat rgb } rest)
    ∧ (∀ i : Int, p.index = some i → 0 ≤ i → i < (LED_COUNT : Int) →
        hex_to_rgb (p.color.getD "#000000") = none →
        setPixelsLoop s (p :: rest) = (s, some valueErrorMsg)) := by
  refine ⟨?_, ?_, ?_, ?_⟩
  · intro h
    simp [setPixelsLoop, setPixelOp, h]
  · intro i h hout
    have hcond : ¬(0 ≤ i ∧ i < (LED_COUNT : Int)) := by omega
    simp [setPixelsLoop, setPixelOp, h, hcond]
  · intro i h h0 hlt rgb hrgb
    have hcond : 0 ≤ i ∧ i < (LED_COUNT : Int) := ⟨h0, hlt⟩
    simp [setPixelsLoop, setPixelOp, h, hcond, hrgb]
  · intro i h h0 hlt hrgb
    have hcond : 0 ≤ i ∧ i < (LED_COUNT : Int) := ⟨h0, hlt⟩
    simp [setPixelsLoop, setPixelOp, h, hcond, hrgb]

/-- Witness for the amended C4: a missing-index entry is skipped, and a
bad-color entry at a valid index aborts with the ValueError. -/
theorem set_pixels_entry_rules_witness :
    (setPixelsLoop initState [⟨none, some "#ff0000"⟩, ⟨some 1, some "#00ff00"⟩]
        = setPixelsLoop initState [⟨some 1, some "#00ff00"⟩])
    ∧ (setPixelsLoop initState [⟨some 0, some "#ZZZZZZ"⟩, ⟨some 1, some "#00ff00"⟩]
        = (initState, some valueErrorMsg)) :=
  ⟨(set_pixels_entry_rules ⟨none, some "#ff0000"⟩ [⟨some 1, some "#00ff00"⟩] initState).1 rfl,
   (set_pixels_entry_rules ⟨some 0, some "#ZZZZZZ"⟩ [⟨some 1, some "#00ff00"⟩] initState).2.2.2
     0 rfl (by decide) (by decide) (by decide)⟩

/-- C5: a queued command whose execution raises an error is caught inside
the worker loop; the worker goes on to dequeue and process the rest of the
queue from the state the failing command left behind. -/
theorem worker_continues_after_error (c : CommandData) (q : List CommandData)
    (s : StripState) (h : (execute_led_command c s).2.isSome = true) :
    process_commands (c :: q) s = process_commands q (execute_led_command c s).1 :=
  rfl

/-- Witness for C5: the bad-color set_pixel command raises, and the queue
behind it is still processed. -/
theorem worker_continues_after_error_witness :
    process_commands
      [⟨"set_pixel", ⟨some "set_pixel", some 0, some "#ZZZZZZ", none, none⟩⟩,
       ⟨"show", emptyData⟩] initState
      = process_commands [⟨"show", emptyData⟩]
          (execute_led_command
            ⟨"set_pixel", ⟨some "set_pixel", some 0, some "#ZZZZZZ", none, none⟩⟩
            initState).1 :=
  worker_continues_after_error
    ⟨"set_pixel", ⟨some "set_pixel", some 0, some "#ZZZZZZ", none, none⟩⟩
    [⟨"show", emptyData⟩] initState (by decide)

/-- C6: a POST whose command value is none of the five recognized commands
gets HTTP 400 with success false and error "Unknown command: <value>", and
nothing is enqueued. -/
theorem unknown_command_rejected (d : JsonData) (c : String) (s : StripState)
    (hc : d.command = some c)
    (h1 : c ≠ "set_pixel") (h2 : c ≠ "set_pixels") (h3 : c ≠ "show")
    (h4 : c ≠ "set_brightness") (h5 : c ≠ "get_config") :
    (do_POST d s).status = 400 ∧ (do_POST d s).success = false
    ∧ (do_POST d s).error = some ("Unknown command: " ++ c)
    ∧ (do_POST d s).enqueued = none := by
  simp [do_POST, hc, h1, h2, h3, h4, h5]

/-- Witness for C6 at the spec's example: command "blink". -/
theorem unknown_command_rejected_witness :
    (do_POST ⟨some "blink", none, none, none, none⟩ initState).status = 400
    ∧ (do_POST ⟨some "blink", none, none, none, none⟩ initState).success = false
    ∧ (do_POST ⟨some "blink", none, none, none, none⟩ initState).error
        = some ("Unknown command: " ++ "blink")
    ∧ (do_POST ⟨some "blink", none, none, none, none⟩ initState).enqueued = none :=
  unknown_command_rejected ⟨some "blink", none, none, none, none⟩ "blink" initState
    rfl (by decide) (by decide) (by decide) (by decide) (by decide)

/-- C7: after the shutdown sequence (fill black, then show) runs, every
pixel is black and the all-black frame is the last one flushed to the
device, whatever commands the worker had processed before. -/
theorem shutdown_blanks_and_flushes (q : List CommandData) (s : StripState) :
    (signal_handler (process_commands q s)).buffer
      = List.replicate LED_COUNT (0, 0, 0)
    ∧ (signal_handler (process_commands q s)).flushLog.getLast?
      = some (List.replicate LED_COUNT (0, 0, 0)) := by
  constructor
  · rfl
  · simp [signal_handler]

/-- C8: show flushes the buffer to the device and changes nothing else;
set_brightness changes only the stored brightness and flushes nothing; and
any command that changes the flush log is the show command. -/
theorem show_only_flush (d : JsonData) (s : StripState) :
    execute_led_command ⟨"show", d⟩ s
      = ({ s with flushLog := s.flushLog ++ [s.buffer] }, none)
    ∧ execute_led_command ⟨"set_brightness", d⟩ s
      = ({ s with brightness := max 0 (min 1 (d.brightness.getD (1 / 2))) }, none)
    ∧ (∀ c : CommandData, (workerStep s c).flushLog ≠ s.flushLog → c.command = "show") := by
  refine ⟨by simp [execute_led_command], by simp [execute_led_command], ?_⟩
  intro c hne
  by_contra hshow
  exact hne (workerStep_flushLog_of_ne s c hshow)

/-- Witness for C8: from the initial state, the show command does change
the flush log, and the theorem identifies it as the show command. -/
theorem show_only_flush_witness :
    (⟨"show", emptyData⟩ : CommandData).command = "show" :=
  (show_only_flush emptyData initState).2.2 ⟨"show", emptyData⟩ (by decide)

/-- C9: every command keeps the buffer at exactly LED_COUNT pixels. -/
theorem execute_preserves_length (c : CommandData) (s : StripState)
    (h : s.buffer.length = LED_COUNT) :
    (workerStep s c).buffer.length = LED_COUNT :=
  (workerStep_buffer_length s c).trans h

/-- Witness for C9 at a concrete in-range set_pixel command from the
initial state. -/
theorem execute_preserves_length_witness :
    (workerStep initState
      ⟨"set_pixel", ⟨some "set_pixel", some 3, some "#123456", none, none⟩⟩).buffer.length
      = LED_COUNT :=
  execute_preserves_length
    ⟨"set_pixel", ⟨some "set_pixel", some 3, some "#123456", none, none⟩⟩
    initState (by decide)

/-- C10: a set_pixel command (or a set_pixels entry) with no index field at
all executes as a silent no-op, and the POST that carries it is still
accepted with 200/success and enqueued. -/
theorem missing_index_silent_noop (d : JsonData) (s : StripState)
    (h : d.index = none) :
    execute_led_command ⟨"set_pixel", d⟩ s = (s, none)
    ∧ (∀ rest : List PixelEntry,
        setPixelsLoop s (⟨none, d.color⟩ :: rest) = setPixelsLoop s rest)
    ∧ (d.command = some "set_pixel" →
        (do_POST d s).status = 200 ∧ (do_POST d s).success = true
        ∧ (do_POST d s).enqueued = some ⟨"set_pixel", d⟩) := by
  refine ⟨?_, ?_, ?_⟩
  · simp [execute_led_command, setPixelOp, h]
  · intro rest
    simp [setPixelsLoop, setPixelOp]
  · intro hc
    simp [do_POST, hc]

/-- Witness for C10: a set_pixel request with a color but no index. -/
theorem missing_index_silent_noop_witness :
    (execute_led_command
        ⟨"set_pixel", ⟨some "set_pixel", none, some "#ff0000", none, none⟩⟩ initState
      = (initState, none))
    ∧ ((do_POST ⟨some "set_pixel", none, some "#ff0000", none, none⟩ initState).status = 200
        ∧ (do_POST ⟨some "set_pixel", none, some "#ff0000", none, none⟩ initState).success = true
        ∧ (do_POST ⟨some "set_pixel", none, some "#ff0000", none, none⟩ initState).enqueued
            = some ⟨"set_pixel", ⟨some "set_pixel", none, some "#ff0000", none, none⟩⟩) :=
  ⟨(missing_index_silent_noop ⟨some "set_pixel", none, some "#ff0000", none, none⟩
      initState rfl).1,
   (missing_index_silent_noop ⟨some "set_pixel", none, some "#ff0000", none, none⟩
      initState rfl).2.2 rfl⟩

end LedController
